import Mathlib

/-!
Shallow embedding of the audio-waveform video generator (src/App.tsx) and
verification of its specification.

Conventions of the embedding:
* JavaScript numbers are embedded as exact rationals (`ℚ`); decimal literals
  such as `0.1`, `0.25`, `0.4`, `0.5` are written as the rationals `1/10`,
  `1/4`, `2/5`, `1/2`.
* A canvas frame is a display list (`List DrawCmd`): two frames are
  byte-identical iff their display lists are equal.  Trigonometric point
  placement in the Circle style is abstracted into the command, which carries
  the angular index, inner radius and tick length that determine the points.
* `freqData[i]` reads that may fall out of bounds are embedded with
  `List.getD _ i 0` (an out-of-bounds bar draws nothing either way).
* The session-level mutable ref `analyserNode.current` is passed to the
  renderer as an explicit `Option ℕ` holding its `frequencyBinCount`;
  dereferencing it while `none` (the `!` assertion in the source) makes the
  render fail, modelled by the result `none`.
* Fallible / crashing code paths return `Option`.
-/

/-- CANVAS_WIDTH (App.tsx line 6). -/
def CANVAS_WIDTH : ℚ := 1280

/-- CANVAS_HEIGHT (App.tsx line 7). -/
def CANVAS_HEIGHT : ℚ := 720

/-- The closed enumeration of render styles (types.ts). -/
inductive WaveformStyle
  | Line
  | GradientLine
  | ReflectedLine
  | Equalizer
  | SymmetricBars
  | BottomBars
  | Circle
  | Pulse
deriving DecidableEq

/-- A color preset: a name and a non-empty ordered list of color stops
(types.ts). -/
structure ColorPreset where
  name : String
  colors : List String
deriving DecidableEq

/-- COLOR_PRESETS (App.tsx lines 9-16). -/
def COLOR_PRESETS : List ColorPreset :=
  [ ⟨"Synthwave", ["#ec4899", "#6d28d9"]⟩,
    ⟨"Ocean", ["#38bdf8", "#34d399"]⟩,
    ⟨"Sunset", ["#f97316", "#ec4899"]⟩,
    ⟨"Emerald", ["#34d399"]⟩,
    ⟨"Sky", ["#38bdf8"]⟩,
    ⟨"Fuchsia", ["#d946ef"]⟩ ]

/-- A decoded audio buffer: channel-0 sample data, sample rate and duration
(the fields of the Web Audio `AudioBuffer` that App.tsx reads). -/
structure AudioBufferM where
  channelData : List ℚ
  sampleRate : ℕ
  duration : ℚ
deriving DecidableEq

/-- A resolved canvas fill/stroke style: a solid CSS color or a gradient with
its geometry and its ordered `(offset, color)` stops. -/
inductive FillStyle
  | solid (color : String)
  | linearGradient (x0 y0 x1 y1 : ℚ) (stops : List (ℚ × String))
  | radialGradient (x0 y0 r0 x1 y1 r1 : ℚ) (stops : List (ℚ × String))
deriving DecidableEq, Inhabited

/-- One drawing command of a rendered frame. -/
inductive DrawCmd
  /-- `context.clearRect(x, y, w, h)`. -/
  | clearRect (x y w h : ℚ)
  /-- `context.fillRect(x, y, w, h)` with the current fill style. -/
  | fillRect (x y w h : ℚ) (fill : FillStyle)
  /-- A filled-and-stroked full circle (`arc` + `fill` + `stroke`). -/
  | circleFillStroke (cx cy r : ℚ) (fill stroke : FillStyle) (lineWidth : ℚ)
  /-- A stroked full circle (`arc` + `stroke`). -/
  | circleStroke (cx cy r : ℚ) (stroke : FillStyle) (lineWidth : ℚ)
  /-- One radial tick of the Circle style: drawn from the point at angle
  `2π·angleIndex/numBars` and distance `radius` from `(cx, cy)` outward to
  distance `radius + len`; the sine/cosine evaluation is abstracted since the
  five parameters determine both endpoints. -/
  | radialTick (cx cy : ℚ) (angleIndex numBars : ℕ) (radius len : ℚ)
      (stroke : FillStyle) (lineWidth : ℚ)
  /-- A stroked polyline (`moveTo`/`lineTo`.../`stroke`) at a global alpha. -/
  | polyline (points : List (ℚ × ℚ)) (stroke : FillStyle) (lineWidth alpha : ℚ)
deriving DecidableEq, Inhabited

/-- The `(offset, color)` stops built by the `forEach` loops of App.tsx:
stop `index` is placed at offset `index / (colors.length - 1)`
(App.tsx lines 63-65, 140-142, 178-180). -/
def gradStops (preset : ColorPreset) : List (ℚ × String) :=
  preset.colors.enum.map fun p =>
    ((p.1 : ℚ) / ((preset.colors.length : ℚ) - 1), p.2)

/-- `getActiveStyle(y1, y2)` (App.tsx lines 60-69): a vertical linear gradient
when the preset has more than one color, else the solid first color. -/
def getActiveStyle (preset : ColorPreset) (y1 y2 : ℚ) : FillStyle :=
  if preset.colors.length > 1 then
    .linearGradient 0 y1 0 y2 (gradStops preset)
  else
    .solid (preset.colors.getD 0 "")

/-- The shaped height of bar `i`: `Math.pow(freqData[i] / 255, 2) * height`
(App.tsx line 81).  Bar `i` reads bin `i` of the snapshot directly. -/
def barHeightOf (fd : List ℕ) (i : ℕ) (height : ℚ) : ℚ :=
  ((fd.getD i 0 : ℚ) / 255) ^ 2 * height

/-- The bar commands of the Equalizer / SymmetricBars / BottomBars case
(App.tsx lines 76-91).  `bottom` selects the BottomBars anchoring; the fill
style is `getActiveStyle(height / 2, height)` for every bar. -/
def barsCmds (bottom : Bool) (barCount barGap : ℕ) (width height : ℚ)
    (preset : ColorPreset) (fd : List ℕ) : List DrawCmd :=
  let barWidth : ℚ := (width - ((barCount : ℚ) - 1) * barGap) / barCount
  (List.range barCount).map fun i =>
    let barHeight := barHeightOf fd i height
    let x : ℚ := i * (barWidth + barGap)
    .fillRect x (if bottom then height - barHeight else (height - barHeight) / 2)
      barWidth barHeight (getActiveStyle preset (height / 2) height)

/-- `bassFrequencies = Math.floor(freqData.length * 0.1)` (App.tsx line 100). -/
def bassFrequencies (fd : List ℕ) : ℕ := fd.length / 10

/-- `bassSum`: the sum of the lowest `bassFrequencies` bins
(App.tsx lines 99-103). -/
def bassSum (fd : List ℕ) : ℚ :=
  ((List.range (bassFrequencies fd)).map fun i => (fd.getD i 0 : ℚ)).sum

/-- `bassAvg = bassSum / bassFrequencies` (App.tsx line 104). -/
def bassAvg (fd : List ℕ) : ℚ := bassSum fd / (bassFrequencies fd : ℚ)

/-- The pulsing-circle radius:
`height * 0.1 + (bassAvg / 255) * height * 0.5` (App.tsx lines 106-107). -/
def pulseRadius (fd : List ℕ) (height : ℚ) : ℚ :=
  height * (1 / 10) + (bassAvg fd / 255) * height * (1 / 2)

/-- The Pulse case (App.tsx lines 94-128): the pulsing circle (semi-transparent
solid fill, gradient-capable stroke, line width 3) followed by the two static
reference rings at `height * 0.25` and `height * 0.4` (line width 1). -/
def pulseCmds (width height : ℚ) (preset : ColorPreset) (fd : List ℕ) :
    List DrawCmd :=
  let centerX := width / 2
  let centerY := height / 2
  let r := pulseRadius fd height
  [ .circleFillStroke centerX centerY r
      (.solid (preset.colors.getD 0 "" ++ "33"))
      (getActiveStyle preset (centerY - r) (centerY + r)) 3,
    .circleStroke centerX centerY (height * (1 / 4))
      (.solid (preset.colors.getD 0 "" ++ "80")) 1,
    .circleStroke centerX centerY (height * (2 / 5))
      (.solid (preset.colors.getD 0 "" ++ "80")) 1 ]

/-- The Circle case (App.tsx lines 130-167): 360 radial ticks from the inner
radius `height / 4`; tick `i` samples bin `Math.floor(i / 360 * length)` and
has length `(bin / 255)² * height * 0.75`. -/
def circleCmds (width height : ℚ) (preset : ColorPreset) (fd : List ℕ) :
    List DrawCmd :=
  let radius := height / 4
  let numBars : ℕ := 360
  let centerX := width / 2
  let centerY := height / 2
  let strokeStyle : FillStyle :=
    if preset.colors.length > 1 then
      .radialGradient centerX centerY radius centerX centerY (radius + height / 2)
        (gradStops preset)
    else
      .solid (preset.colors.getD 0 "")
  (List.range numBars).map fun i =>
    let dataIndex := i * fd.length / numBars
    let amplitude : ℚ := (fd.getD dataIndex 0 : ℚ)
    let barHeight := (amplitude / 255) ^ 2 * height * (3 / 4)
    .radialTick centerX centerY i numBars radius barHeight strokeStyle 2

/-- The stroke style of the Line / GradientLine / ReflectedLine case
(App.tsx lines 172-185): Line always strokes with the solid first color; the
other two use a horizontal gradient when the preset has more than one color. -/
def lineStrokeStyle (style : WaveformStyle) (width : ℚ) (preset : ColorPreset) :
    FillStyle :=
  if style = .Line then
    .solid (preset.colors.getD 0 "")
  else if preset.colors.length > 1 then
    .linearGradient 0 0 width 0 (gradStops preset)
  else
    .solid (preset.colors.getD 0 "")

/-- `samplesToDraw = Math.floor(width)` (App.tsx line 192). -/
def samplesToDraw (width : ℚ) : ℕ := ⌊width⌋₊

/-- `startSample = Math.max(0, currentSampleIndex - samplesToDraw / 2)`
(App.tsx line 193), as the exact rational JavaScript computes. -/
def lineStartSample (width : ℚ) (currentSampleIndex : ℤ) : ℚ :=
  max 0 ((currentSampleIndex : ℚ) - (samplesToDraw width : ℚ) / 2)

/-- `data[sampleIndex] || 0` (App.tsx line 197): a JavaScript indexed read that
yields the stored sample only for an integral in-bounds index and `0`
(`undefined || 0`) otherwise. -/
def jsSampleAt (data : List ℚ) (idx : ℚ) : ℚ :=
  if idx.den = 1 ∧ 0 ≤ idx.num ∧ idx.num < data.length then
    data.getD idx.num.toNat 0
  else 0

/-- The polyline points built by `drawLine` (App.tsx lines 190-207): point `i`
is `(i, amplitude * height / 4 + height / 2)` with the amplitude negated for
the reflected pass. -/
def drawLinePoints (data : List ℚ) (width height : ℚ)
    (currentSampleIndex : ℤ) (reflection : Bool) : List (ℚ × ℚ) :=
  (List.range (samplesToDraw width)).map fun (i : ℕ) =>
    let amplitude :=
      jsSampleAt data (lineStartSample width currentSampleIndex + (i : ℚ))
    ((i : ℚ),
      (if reflection then -amplitude else amplitude) * height / 4 + height / 2)

/-- The Line / GradientLine / ReflectedLine case (App.tsx lines 169-216):
one polyline of width 2 at alpha 1, plus for ReflectedLine the mirrored
polyline at alpha 0.5. -/
def lineCmds (style : WaveformStyle) (data : List ℚ) (width height : ℚ)
    (currentSampleIndex : ℤ) (preset : ColorPreset) : List DrawCmd :=
  let stroke := lineStrokeStyle style width preset
  .polyline (drawLinePoints data width height currentSampleIndex false) stroke 2 1 ::
    (if style = .ReflectedLine then
      [.polyline (drawLinePoints data width height currentSampleIndex true) stroke 2 (1 / 2)]
    else [])

/-- `drawWaveform` (App.tsx lines 40-218).  `analyserBinCount` is the
`frequencyBinCount` of the session-level mutable ref `analyserNode.current`
(`none` when the ref is null); the result is `none` exactly when the source
would crash dereferencing that ref (`analyserNode.current!`, line 76), which
only the Equalizer case with a non-null snapshot does.  The background is a
`clearRect` always, plus the solid `#111827` fill when not transparent
(lines 54-58). -/
def drawWaveform (analyserBinCount : Option ℕ) (width height : ℚ)
    (buffer : AudioBufferM) (currentTime : ℚ) (style : WaveformStyle)
    (preset : ColorPreset) (isTransparentBg : Bool)
    (freqData : Option (List ℕ)) : Option (List DrawCmd) :=
  let data := buffer.channelData
  let currentSampleIndex : ℤ := ⌊currentTime * (buffer.sampleRate : ℚ)⌋
  let bg : List DrawCmd :=
    .clearRect 0 0 width height ::
      (if isTransparentBg then []
       else [.fillRect 0 0 width height (.solid "#111827")])
  match style with
  | .Equalizer =>
    match freqData with
    | none => some bg
    | some fd =>
      analyserBinCount.map fun binCount =>
        bg ++ barsCmds false (binCount / 4) 1 width height preset fd
  | .SymmetricBars =>
    match freqData with
    | none => some bg
    | some fd => some (bg ++ barsCmds false 128 4 width height preset fd)
  | .BottomBars =>
    match freqData with
    | none => some bg
    | some fd => some (bg ++ barsCmds true 128 4 width height preset fd)
  | .Pulse =>
    match freqData with
    | none => some bg
    | some fd => some (bg ++ pulseCmds width height preset fd)
  | .Circle =>
    match freqData with
    | none => some bg
    | some fd => some (bg ++ circleCmds width height preset fd)
  | .Line => some (bg ++ lineCmds .Line data width height currentSampleIndex preset)
  | .GradientLine =>
    some (bg ++ lineCmds .GradientLine data width height currentSampleIndex preset)
  | .ReflectedLine =>
    some (bg ++ lineCmds .ReflectedLine data width height currentSampleIndex preset)

/-- The pieces of the App component state and refs that the export and
file-loading handlers read or write.  `analyserBinCount` is the
`frequencyBinCount` of `analyserNode.current` (`none` while the ref is null);
`recordersStarted` counts the `MediaRecorder` sessions started by
`recorder.start()` (App.tsx line 338). -/
structure AppState where
  fileName : String
  audioBuffer : Option AudioBufferM
  canvasPresent : Bool
  isPlaying : Bool
  isExporting : Bool
  exportProgress : ℚ
  exportedVideoUrl : Option String
  analyserBinCount : Option ℕ
  recordersStarted : ℕ
deriving DecidableEq

/-- The synchronous state change of `handleExport` (App.tsx lines 303-339):
it returns unchanged only when the canvas ref or the audio buffer is missing;
otherwise it sets `isExporting`, resets `exportProgress` to 0, clears the
exported URL and starts a fresh recorder — with no check of `isExporting`. -/
def handleExport (s : AppState) : AppState :=
  if s.canvasPresent = false ∨ s.audioBuffer = none then s
  else
    { s with
      isExporting := true
      exportProgress := 0
      exportedVideoUrl := none
      recordersStarted := s.recordersStarted + 1 }

/-- Whether the export button is rendered:
`audioBuffer && !isExporting && ...` (App.tsx line 457). -/
def exportButtonRendered (s : AppState) : Bool :=
  s.audioBuffer.isSome && !s.isExporting

/-- `fftSize = 2048` set on every analyser the app creates
(App.tsx lines 269, 315). -/
def analyserFftSize : ℕ := 2048

/-- Web Audio: `frequencyBinCount = fftSize / 2`, so 1024 here. -/
def frequencyBinCount : ℕ := analyserFftSize / 2

/-- The state change of the successful path of `handleFileChange`
(App.tsx lines 248-283): stores the decoded buffer, stops playback, clears any
previous export result, and — when `analyserNode.current` is still null —
creates the session analyser with `fftSize = 2048`. -/
def handleFileChangeSuccess (s : AppState) (name : String)
    (decoded : AudioBufferM) : AppState :=
  { s with
    fileName := name
    audioBuffer := some decoded
    isPlaying := false
    exportedVideoUrl := none
    analyserBinCount := some (s.analyserBinCount.getD frequencyBinCount) }

/-- An observable event of the export recording loop. -/
inductive ExportEvent
  /-- One frame rendered via `drawWaveform` at the given position (seconds). -/
  | renderFrame (position : ℚ)
  /-- `setExportProgress(percent)`. -/
  | progressReport (percent : ℚ)
  /-- `bufferSource.stop()`. -/
  | stopSource
  /-- `recorder.stop()`. -/
  | stopRecorder
  /-- `stream.getTracks().forEach(track => track.stop())`. -/
  | stopTracks
deriving DecidableEq

/-- `recordAnimation` (App.tsx lines 343-359), run against the sequence `ts`
of successive `performance.now()` readings (milliseconds) it observes:
each iteration computes `elapsedTime = (now - startTime) / 1000`; while
`elapsedTime < duration` it renders a frame at `elapsedTime` and reports
`elapsedTime / duration * 100` percent, else it stops the audio source, the
recorder and the stream tracks and reports 100 percent once. -/
def recordAnimation (duration startTime : ℚ) : List ℚ → List ExportEvent
  | [] => []
  | now :: rest =>
    let elapsedTime := (now - startTime) / 1000
    if elapsedTime < duration then
      .renderFrame elapsedTime ::
        .progressReport (elapsedTime / duration * 100) ::
          recordAnimation duration startTime rest
    else
      [.stopSource, .stopRecorder, .stopTracks, .progressReport 100]

/-- The positions of the frames rendered in a trace, in order. -/
def framePositions (evs : List ExportEvent) : List ℚ :=
  evs.filterMap fun e =>
    match e with
    | .renderFrame p => some p
    | _ => none

/-- Whether a command is a `fillRect`. -/
def isFillRect : DrawCmd → Bool
  | .fillRect _ _ _ _ _ => true
  | _ => false

/-- The number of `fillRect` commands in a render result (with a transparent
background these are exactly the bars). -/
def barRectCount (o : Option (List DrawCmd)) : ℕ :=
  (o.getD []).countP isFillRect

/-- Modelled from the spec's words, for comparison with the source (claim about
SymmetricBars/BottomBars resampling): the bar height the spec describes, with
bar `i` of `M = 128` bars reading the evenly-resampled bin
`floor(i / M * N)` of a snapshot of length `N`. -/
def specBarHeight (fd : List ℕ) (i : ℕ) (height : ℚ) : ℚ :=
  ((fd.getD (i * fd.length / 128) 0 : ℚ) / 255) ^ 2 * height

/-- A snapshot of length 256 whose only loud bin is bin 2. -/
def fdBinTwoLoud : List ℕ := 0 :: 0 :: 255 :: List.replicate 253 0

/-- A small decoded buffer used in concrete instances. -/
def sampleBuffer : AudioBufferM := ⟨[0], 44100, 1⟩

/-- The Synthwave preset (two stops). -/
def synthwavePreset : ColorPreset := ⟨"Synthwave", ["#ec4899", "#6d28d9"]⟩

/-- The Emerald preset (one stop). -/
def emeraldPreset : ColorPreset := ⟨"Emerald", ["#34d399"]⟩

/-- The Fuchsia preset (one stop). -/
def fuchsiaPreset : ColorPreset := ⟨"Fuchsia", ["#d946ef"]⟩

/-- A state in the middle of an export: Recording, half done. -/
def exportingState : AppState :=
  { fileName := "track.mp3"
    audioBuffer := some sampleBuffer
    canvasPresent := true
    isPlaying := false
    isExporting := true
    exportProgress := 50
    exportedVideoUrl := none
    analyserBinCount := some 1024
    recordersStarted := 1 }

/-- A fresh state with no audio loaded (and hence no analyser). -/
def idleNoBufferState : AppState :=
  { fileName := ""
    audioBuffer := none
    canvasPresent := true
    isPlaying := false
    isExporting := false
    exportProgress := 0
    exportedVideoUrl := none
    analyserBinCount := none
    recordersStarted := 0 }

/-- `jsSampleAt` returns 0 at every index outside the signal bounds. -/
theorem jsSampleAt_oob (data : List ℚ) (idx : ℚ)
    (h : idx < 0 ∨ (data.length : ℚ) ≤ idx) : jsSampleAt data idx = 0 := by
  rw [jsSampleAt]
  split
  · next hcond =>
    obtain ⟨hden, hnum0, hnumlt⟩ := hcond
    have hval : ((idx.num : ℚ)) = idx := (Rat.den_eq_one_iff idx).1 hden
    rcases h with h | h
    · have : (idx.num : ℚ) < 0 := hval ▸ h
      exact absurd hnum0 (not_le.2 (by exact_mod_cast this))
    · have : (data.length : ℚ) ≤ (idx.num : ℚ) := hval ▸ h
      exact absurd hnumlt (not_lt.2 (by exact_mod_cast this))
  · rfl

/-- C6: for every ColorPreset, the fill/stroke resolver returns a solid fill
when the preset has exactly 1 stop, and for presets with ≥ 2 stops returns a
gradient in which stop index `k` is placed exactly at offset `k / (len - 1)`,
so the stops appear in order. -/
theorem getActiveStyle_solid_or_gradient (preset : ColorPreset) (y1 y2 : ℚ) :
    (preset.colors.length = 1 →
      getActiveStyle preset y1 y2 = .solid (preset.colors.getD 0 "")) ∧
    (2 ≤ preset.colors.length →
      getActiveStyle preset y1 y2 = .linearGradient 0 y1 0 y2 (gradStops preset) ∧
      (gradStops preset).length = preset.colors.length ∧
      ∀ k, k < preset.colors.length →
        (gradStops preset).getD k (0, "") =
          ((k : ℚ) / ((preset.colors.length : ℚ) - 1), preset.colors.getD k "")) := by
  constructor
  · intro h
    simp [getActiveStyle, h]
  · intro h
    refine ⟨by simp [getActiveStyle]; omega, by simp [gradStops, List.enum_length], ?_⟩
    intro k hk
    have h1 : (gradStops preset)[k]? =
        some (((k : ℚ) / ((preset.colors.length : ℚ) - 1), preset.colors.getD k "")) := by
      rw [gradStops, List.getElem?_map, List.getElem?_enum,
        List.getElem?_eq_getElem hk]
      simp [List.getD_eq_getElem?_getD, List.getElem?_eq_getElem hk]
    rw [List.getD_eq_getElem?_getD, h1]
    rfl

/-- Witness for C6 at the one-stop Emerald preset and the two-stop Synthwave
preset, stop index 1. -/
theorem getActiveStyle_solid_or_gradient_witness :
    getActiveStyle emeraldPreset 0 720 = .solid (emeraldPreset.colors.getD 0 "") ∧
    getActiveStyle synthwavePreset 0 720 =
      .linearGradient 0 0 0 720 (gradStops synthwavePreset) ∧
    (gradStops synthwavePreset).getD 1 (0, "") =
      ((1 : ℚ) / ((synthwavePreset.colors.length : ℚ) - 1),
        synthwavePreset.colors.getD 1 "") :=
  ⟨(getActiveStyle_solid_or_gradient emeraldPreset 0 720).1 rfl,
   ((getActiveStyle_solid_or_gradient synthwavePreset 0 720).2 (by decide)).1,
   ((getActiveStyle_solid_or_gradient synthwavePreset 0 720).2 (by decide)).2.2 1
     (by decide)⟩

/-- C9: for the Line style the polyline's stroke color is always the preset's
first color stop as a solid color, for every ColorPreset — including presets
with 2 or more stops, which in this style are never rendered as a gradient;
GradientLine and ReflectedLine do use a horizontal gradient for such presets. -/
theorem lineStrokeStyle_line_always_solid (preset : ColorPreset) (w : ℚ) :
    lineStrokeStyle .Line w preset = .solid (preset.colors.getD 0 "") ∧
    (2 ≤ preset.colors.length →
      lineStrokeStyle .GradientLine w preset =
        .linearGradient 0 0 w 0 (gradStops preset) ∧
      lineStrokeStyle .ReflectedLine w preset =
        .linearGradient 0 0 w 0 (gradStops preset)) := by
  refine ⟨by simp [lineStrokeStyle], fun h => ⟨?_, ?_⟩⟩ <;>
    · rw [lineStrokeStyle]
      rw [if_neg (by decide), if_pos (by omega)]

/-- Witness for C9 at the two-stop Synthwave preset and width 1280. -/
theorem lineStrokeStyle_line_always_solid_witness :
    lineStrokeStyle .Line 1280 synthwavePreset =
      .solid (synthwavePreset.colors.getD 0 "") ∧
    lineStrokeStyle .GradientLine 1280 synthwavePreset =
      .linearGradient 0 0 1280 0 (gradStops synthwavePreset) :=
  ⟨(lineStrokeStyle_line_always_solid synthwavePreset 1280).1,
   ((lineStrokeStyle_line_always_solid synthwavePreset 1280).2 (by decide)).1⟩

/-- Counterexample to C1: `handleExport` performs no `isExporting` check, so a
second export request issued while one is Recording (`isExporting = true`,
progress 50%) is not rejected — it resets the in-progress job's
`exportProgress` to 0 and starts a second recorder. -/
theorem handleExport_no_mutual_exclusion_cex :
    handleExport exportingState ≠ exportingState ∧
    (handleExport exportingState).exportProgress = 0 ∧
    (handleExport exportingState).recordersStarted =
      exportingState.recordersStarted + 1 := by decide

/-- C1 (amended): `handleExport` rejects a request synchronously (returning
the state unchanged) only when the canvas ref or the audio buffer is missing;
it never checks `isExporting`.  Exports are kept from interleaving only by the
UI, which does not render the export button while `isExporting` is true. -/
theorem handleExport_reject_conditions (s : AppState) :
    (s.audioBuffer = none → handleExport s = s) ∧
    (s.canvasPresent = false → handleExport s = s) ∧
    (s.isExporting = true → exportButtonRendered s = false) := by
  refine ⟨fun h => ?_, fun h => ?_, fun h => ?_⟩
  · simp [handleExport, h]
  · simp [handleExport, h]
  · simp [exportButtonRendered, h]

/-- Witness for the amended C1: a state with no buffer is returned unchanged,
and the export button is not rendered in a Recording state. -/
theorem handleExport_reject_conditions_witness :
    handleExport idleNoBufferState = idleNoBufferState ∧
    exportButtonRendered exportingState = false :=
  ⟨(handleExport_reject_conditions idleNoBufferState).1 rfl,
   (handleExport_reject_conditions exportingState).2.2 rfl⟩

/-- C2: for a signal of duration `D` (and a run of the recording loop that
eventually observes `elapsed ≥ D`), the export loop renders frames only at
positions `elapsed < D`, reports percentages that never exceed 100, stops the
audio source and the recorder, and reports 100% (progressFraction 1) exactly
once. -/
theorem recordAnimation_duration_invariant (D startTime : ℚ) (hD : 0 < D)
    (ts : List ℚ) (hterm : ∃ t ∈ ts, D ≤ (t - startTime) / 1000) :
    (∀ p, ExportEvent.renderFrame p ∈ recordAnimation D startTime ts → p < D) ∧
    (recordAnimation D startTime ts).count (ExportEvent.progressReport 100) = 1 ∧
    (∀ q, ExportEvent.progressReport q ∈ recordAnimation D startTime ts → q ≤ 100) ∧
    ExportEvent.stopSource ∈ recordAnimation D startTime ts ∧
    ExportEvent.stopRecorder ∈ recordAnimation D startTime ts := by
  induction ts with
  | nil => simp at hterm
  | cons now rest ih =>
    by_cases hlt : (now - startTime) / 1000 < D
    · have hterm' : ∃ t ∈ rest, D ≤ (t - startTime) / 1000 := by
        rcases hterm with ⟨t, ht, hDt⟩
        rcases List.mem_cons.1 ht with h | h
        · subst h; exact absurd hDt (not_le.2 hlt)
        · exact ⟨t, h, hDt⟩
      obtain ⟨ihA, ihB, ihC, ihD, ihE⟩ := ih hterm'
      have hne : ((now - startTime) / 1000 / D * 100 : ℚ) ≠ 100 := by
        intro hcontra
        have h1 : (now - startTime) / 1000 / D = 1 := by linarith
        have h2 : (now - startTime) / 1000 = D := (div_eq_one_iff_eq hD.ne').1 h1
        linarith
      have hunfold : recordAnimation D startTime (now :: rest) =
          .renderFrame ((now - startTime) / 1000) ::
            .progressReport ((now - startTime) / 1000 / D * 100) ::
              recordAnimation D startTime rest := by
        simp [recordAnimation, hlt]
      rw [hunfold]
      refine ⟨?_, ?_, ?_, ?_, ?_⟩
      · intro p hp
        rcases List.mem_cons.1 hp with h | h
        · cases h; exact hlt
        · rcases List.mem_cons.1 h with h | h
          · cases h
          · exact ihA p h
      · simp [List.count_cons, ihB, hne]
      · intro q hq
        rcases List.mem_cons.1 hq with h | h
        · cases h
        · rcases List.mem_cons.1 h with h | h
          · cases h
            have hlt1 : (now - startTime) / 1000 / D < 1 := (div_lt_one hD).2 hlt
            linarith
          · exact ihC q h
      · exact List.mem_cons_of_mem _ (List.mem_cons_of_mem _ ihD)
      · exact List.mem_cons_of_mem _ (List.mem_cons_of_mem _ ihE)
    · have hunfold : recordAnimation D startTime (now :: rest) =
          [.stopSource, .stopRecorder, .stopTracks, .progressReport 100] := by
        simp [recordAnimation, hlt]
      rw [hunfold]
      refine ⟨by simp, by simp [List.count_cons], ?_, by simp, by simp⟩
      intro q hq
      simp only [List.mem_cons, List.mem_singleton] at hq
      rcases hq with h | h | h | h | h <;> (first | (cases h; simp_all) | simp_all)

/-- Witness for C2: a 1-second export whose loop observes the reading 2000 ms
reports 100% exactly once and stops the source and the recorder. -/
theorem recordAnimation_duration_invariant_witness :
    (recordAnimation 1 0 [2000]).count (ExportEvent.progressReport 100) = 1 ∧
    ExportEvent.stopSource ∈ recordAnimation 1 0 [2000] ∧
    ExportEvent.stopRecorder ∈ recordAnimation 1 0 [2000] :=
  ⟨(recordAnimation_duration_invariant 1 0 (by norm_num) [2000]
      ⟨2000, by simp, by norm_num⟩).2.1,
   (recordAnimation_duration_invariant 1 0 (by norm_num) [2000]
      ⟨2000, by simp, by norm_num⟩).2.2.2.1,
   (recordAnimation_duration_invariant 1 0 (by norm_num) [2000]
      ⟨2000, by simp, by norm_num⟩).2.2.2.2⟩

/-- Counterexample to C3: the export clock is not independent of wall-clock
time — two runs over the same signal and configuration whose
`performance.now()` readings differ (100 ms vs 200 ms after start) render
their first frame at different positions (0.1 s vs 0.2 s). -/
theorem export_clock_wallclock_dependent_cex :
    framePositions (recordAnimation 1 0 [100, 2000]) ≠
      framePositions (recordAnimation 1 0 [200, 2000]) := by
  have h1 : framePositions (recordAnimation 1 0 [100, 2000]) = [1 / 10] := by
    norm_num [recordAnimation, framePositions, List.filterMap]
  have h2 : framePositions (recordAnimation 1 0 [200, 2000]) = [1 / 5] := by
    norm_num [recordAnimation, framePositions, List.filterMap]
  rw [h1, h2]
  simp

/-- C3 (amended): during export each iteration's frame position is the elapsed
wall-clock time `(performance.now() - startTime) / 1000`, not a fixed
per-iteration frame step; the frame positions are a deterministic function of
the wall-clock readings only. -/
theorem recordAnimation_position_is_wallclock (D startTime now : ℚ)
    (rest : List ℚ) (h : (now - startTime) / 1000 < D) :
    recordAnimation D startTime (now :: rest) =
      ExportEvent.renderFrame ((now - startTime) / 1000) ::
        ExportEvent.progressReport ((now - startTime) / 1000 / D * 100) ::
          recordAnimation D startTime rest := by
  simp [recordAnimation, h]

/-- Witness for the amended C3: one concrete iteration whose reading is 100 ms
after start renders at position (100 - 0) / 1000 = 0.1 s. -/
theorem recordAnimation_position_is_wallclock_witness :
    recordAnimation 1 0 [100] =
      [ExportEvent.renderFrame ((100 - 0) / 1000),
       ExportEvent.progressReport ((100 - 0) / 1000 / 1 * 100)] :=
  recordAnimation_position_is_wallclock 1 0 100 [] (by norm_num)

/-- Counterexample to C4: on a 256-bin snapshot whose only loud bin is bin 2,
bar 1 of the SymmetricBars/BottomBars styles has height 0 (the code reads bin
`i` directly), while the claimed evenly-resampled bin `floor(1 / 128 * 256) = 2`
would give height 720 — the bars are not resampled across the snapshot. -/
theorem bars_not_resampled_cex :
    barHeightOf fdBinTwoLoud 1 720 = 0 ∧
    specBarHeight fdBinTwoLoud 1 720 = 720 ∧
    barHeightOf fdBinTwoLoud 1 720 ≠ specBarHeight fdBinTwoLoud 1 720 := by
  refine ⟨?_, ?_, ?_⟩ <;>
    norm_num [barHeightOf, specBarHeight, fdBinTwoLoud, List.getD_cons_succ,
      List.getD_cons_zero]

/-- C4 (amended): the 128 bars of SymmetricBars and BottomBars are drawn from
the first 128 bins of the snapshot — bar `i` reads bin `i` directly, with no
resampling — and bar `i`'s height is the shaped amplitude
`(freqData[i] / 255)² · height`. -/
theorem bars_use_first_bins (w h : ℚ) (preset : ColorPreset) (fd : List ℕ)
    (a : Option ℕ) (buf : AudioBufferM) (t : ℚ) (i : ℕ) (hi : i < 128) :
    (barsCmds false 128 4 w h preset fd).getD i default =
      .fillRect ((i : ℚ) * ((w - 127 * 4) / 128 + 4))
        ((h - barHeightOf fd i h) / 2) ((w - 127 * 4) / 128)
        (barHeightOf fd i h) (getActiveStyle preset (h / 2) h) ∧
    (barsCmds true 128 4 w h preset fd).getD i default =
      .fillRect ((i : ℚ) * ((w - 127 * 4) / 128 + 4))
        (h - barHeightOf fd i h) ((w - 127 * 4) / 128)
        (barHeightOf fd i h) (getActiveStyle preset (h / 2) h) ∧
    barHeightOf fd i h = ((fd.getD i 0 : ℚ) / 255) ^ 2 * h ∧
    drawWaveform a w h buf t .SymmetricBars preset true (some fd) =
      some (.clearRect 0 0 w h :: barsCmds false 128 4 w h preset fd) ∧
    drawWaveform a w h buf t .BottomBars preset true (some fd) =
      some (.clearRect 0 0 w h :: barsCmds true 128 4 w h preset fd) := by
  refine ⟨?_, ?_, rfl, by simp [drawWaveform], by simp [drawWaveform]⟩ <;>
    · rw [List.getD_eq_getElem?_getD, barsCmds]
      simp only [List.getElem?_map, List.getElem?_range, hi, if_pos]
      norm_num

/-- Witness for the amended C4 at bar 1 of the loud-bin-2 snapshot. -/
theorem bars_use_first_bins_witness :
    (barsCmds false 128 4 1280 720 fuchsiaPreset fdBinTwoLoud).getD 1 default =
      .fillRect ((1 : ℚ) * ((1280 - 127 * 4) / 128 + 4))
        ((720 - barHeightOf fdBinTwoLoud 1 720) / 2) ((1280 - 127 * 4) / 128)
        (barHeightOf fdBinTwoLoud 1 720)
        (getActiveStyle fuchsiaPreset (720 / 2) 720) ∧
    drawWaveform none 1280 720 sampleBuffer 0 .SymmetricBars fuchsiaPreset true
        (some fdBinTwoLoud) =
      some (.clearRect 0 0 1280 720 ::
        barsCmds false 128 4 1280 720 fuchsiaPreset fdBinTwoLoud) :=
  ⟨(bars_use_first_bins 1280 720 fuchsiaPreset fdBinTwoLoud none sampleBuffer 0 1
      (by decide)).1,
   (bars_use_first_bins 1280 720 fuchsiaPreset fdBinTwoLoud none sampleBuffer 0 1
      (by decide)).2.2.2.1⟩

/-- On a snapshot whose lowest tenth of bins are all 255, the bass average is
exactly 255. -/
theorem bassAvg_all_loud (fd : List ℕ) (hk : 0 < bassFrequencies fd)
    (hall : ∀ j, j < bassFrequencies fd → fd.getD j 0 = 255) :
    bassAvg fd = 255 := by
  have hmap : (List.range (bassFrequencies fd)).map (fun i => (fd.getD i 0 : ℚ)) =
      List.replicate (bassFrequencies fd) (255 : ℚ) := by
    apply List.eq_replicate_iff.2
    refine ⟨by simp, ?_⟩
    intro b hb
    rcases List.mem_map.1 hb with ⟨i, hi, hfi⟩
    have : fd.getD i 0 = 255 := hall i (List.mem_range.1 hi)
    rw [← hfi, this]
    norm_num
  have hsum : bassSum fd = (bassFrequencies fd : ℚ) * 255 := by
    rw [bassSum, hmap, List.sum_replicate, nsmul_eq_mul]
  rw [bassAvg, hsum, mul_comm,
    mul_div_assoc, div_self (by exact_mod_cast hk.ne'), mul_one]

/-- C5: the pulsing circle's radius is 10% of the frame height plus a term
proportional to the average magnitude of the lowest 10% of bins; when every
low bin is 255 the radius is the configured maximum `0.6 · height`
(10% + 50%), and the two static reference rings sit at 25% and 40% of the
height. -/
theorem pulse_radius_spec (fd : List ℕ) (width height : ℚ)
    (preset : ColorPreset) (hk : 0 < bassFrequencies fd)
    (hall : ∀ j, j < bassFrequencies fd → fd.getD j 0 = 255) :
    pulseRadius fd height =
      height * (1 / 10) + (bassAvg fd / 255) * height * (1 / 2) ∧
    bassAvg fd = 255 ∧
    pulseRadius fd height = (3 / 5) * height ∧
    (pulseCmds width height preset fd).getD 0 default =
      .circleFillStroke (width / 2) (height / 2) (pulseRadius fd height)
        (.solid (preset.colors.getD 0 "" ++ "33"))
        (getActiveStyle preset (height / 2 - pulseRadius fd height)
          (height / 2 + pulseRadius fd height)) 3 ∧
    (pulseCmds width height preset fd).getD 1 default =
      .circleStroke (width / 2) (height / 2) (height * (1 / 4))
        (.solid (preset.colors.getD 0 "" ++ "80")) 1 ∧
    (pulseCmds width height preset fd).getD 2 default =
      .circleStroke (width / 2) (height / 2) (height * (2 / 5))
        (.solid (preset.colors.getD 0 "" ++ "80")) 1 := by
  refine ⟨rfl, bassAvg_all_loud fd hk hall, ?_, rfl, rfl, rfl⟩
  rw [pulseRadius, bassAvg_all_loud fd hk hall]
  ring

/-- Witness for C5: a 20-bin snapshot that is all 255 gives radius
`(3/5) · 720 = 432` and the static rings at `720/4` and `2·720/5`. -/
theorem pulse_radius_spec_witness :
    pulseRadius (List.replicate 20 255) 720 = (3 / 5) * 720 ∧
    (pulseCmds 1280 720 emeraldPreset (List.replicate 20 255)).getD 1 default =
      .circleStroke (1280 / 2) (720 / 2) (720 * (1 / 4))
        (.solid (emeraldPreset.colors.getD 0 "" ++ "80")) 1 ∧
    (pulseCmds 1280 720 emeraldPreset (List.replicate 20 255)).getD 2 default =
      .circleStroke (1280 / 2) (720 / 2) (720 * (2 / 5))
        (.solid (emeraldPreset.colors.getD 0 "" ++ "80")) 1 :=
  ⟨(pulse_radius_spec (List.replicate 20 255) 1280 720 emeraldPreset
      (by decide) (fun j hj => by
        have h2 : j < 2 := by simpa [bassFrequencies] using hj
        interval_cases j <;> rfl)).2.2.1,
   (pulse_radius_spec (List.replicate 20 255) 1280 720 emeraldPreset
      (by decide) (fun j hj => by
        have h2 : j < 2 := by simpa [bassFrequencies] using hj
        interval_cases j <;> rfl)).2.2.2.2.1,
   (pulse_radius_spec (List.replicate 20 255) 1280 720 emeraldPreset
      (by decide) (fun j hj => by
        have h2 : j < 2 := by simpa [bassFrequencies] using hj
        interval_cases j <;> rfl)).2.2.2.2.2⟩

/-- Counterexample to C7: two renders with identical
(signal, position, snapshot, config) inputs differ when the session analyser
state differs — with the analyser present the Equalizer style renders a frame,
without it the render crashes — so the frame is not a pure function of exactly
those four inputs. -/
theorem drawWaveform_analyser_dependence_cex :
    drawWaveform (some 1024) 1280 720 sampleBuffer 0 .Equalizer fuchsiaPreset
        true (some []) ≠
      drawWaveform none 1280 720 sampleBuffer 0 .Equalizer fuchsiaPreset
        true (some []) := by
  simp [drawWaveform]

/-- C7 (amended): the frame renderer is deterministic, and for every style
except Equalizer it is a pure function of exactly
(signal, position, snapshot, config) — its output does not depend on the
session analyser state; the Equalizer style additionally reads the session
analyser's `frequencyBinCount`. -/
theorem drawWaveform_pure_beyond_equalizer (a1 a2 : Option ℕ) (w h : ℚ)
    (buf : AudioBufferM) (t : ℚ) (style : WaveformStyle) (preset : ColorPreset)
    (bgT : Bool) (fd : Option (List ℕ)) (hstyle : style ≠ .Equalizer) :
    drawWaveform a1 w h buf t style preset bgT fd =
      drawWaveform a2 w h buf t style preset bgT fd := by
  cases style <;> first | rfl | exact absurd rfl hstyle

/-- Witness for the amended C7: a Line render is unchanged by the analyser
state. -/
theorem drawWaveform_pure_beyond_equalizer_witness :
    drawWaveform (some 1024) 1280 720 sampleBuffer 0 .Line fuchsiaPreset
        true (some []) =
      drawWaveform none 1280 720 sampleBuffer 0 .Line fuchsiaPreset
        true (some []) :=
  drawWaveform_pure_beyond_equalizer (some 1024) none 1280 720 sampleBuffer 0
    .Line fuchsiaPreset true (some []) (by decide)

/-- C8: for the Line / GradientLine / ReflectedLine styles, every sample index
outside the signal's bounds (negative or past the last sample) reads as zero
amplitude, an out-of-bounds point of the drawing window sits on the silent
center line `height / 2`, and rendering at any position — including past the
signal's end — always produces a frame, never an error. -/
theorem line_window_oob_silence (data : List ℚ) (idx : ℚ) (w h : ℚ) (csi : ℤ)
    (i : ℕ) (r : Bool) (a : Option ℕ) (buf : AudioBufferM) (t : ℚ)
    (preset : ColorPreset) (bgT : Bool) (fd : Option (List ℕ))
    (style : WaveformStyle)
    (hstyle : style = .Line ∨ style = .GradientLine ∨ style = .ReflectedLine)
    (hidx : idx < 0 ∨ (data.length : ℚ) ≤ idx)
    (hi : i < samplesToDraw w)
    (hoob : (data.length : ℚ) ≤ lineStartSample w csi + (i : ℚ)) :
    jsSampleAt data idx = 0 ∧
    (drawLinePoints data w h csi r).getD i (0, 0) = ((i : ℚ), h / 2) ∧
    (drawWaveform a w h buf t style preset bgT fd).isSome = true := by
  refine ⟨jsSampleAt_oob data idx hidx, ?_, ?_⟩
  · rw [List.getD_eq_getElem?_getD, drawLinePoints]
    simp only [List.getElem?_map, List.getElem?_range, hi, if_pos,
      Option.map_some', Option.getD_some]
    rw [jsSampleAt_oob data _ (Or.inr hoob)]
    cases r <;> norm_num
  · rcases hstyle with h' | h' | h' <;> subst h' <;> simp [drawWaveform]

/-- Witness for C8: a 2-sample signal drawn in a 4-pixel window far past its
end reads silence and still renders. -/
theorem line_window_oob_silence_witness :
    jsSampleAt [1, 1] (-1) = 0 ∧
    (drawLinePoints [1, 1] 4 720 100 false).getD 0 (0, 0) = ((0 : ℚ), 720 / 2) ∧
    (drawWaveform none 4 720 sampleBuffer 5 .Line emeraldPreset true
      none).isSome = true :=
  line_window_oob_silence [1, 1] (-1) 4 720 100 0 false none sampleBuffer 5
    emeraldPreset true none .Line (Or.inl rfl) (Or.inl (by norm_num))
    (by norm_num [samplesToDraw]) (by norm_num [lineStartSample, samplesToDraw])

/-- C10: rendering the Equalizer style with a non-null snapshot dereferences
the session analyser to obtain the bar count — it crashes when the analyser
is absent, and with the analyser present it draws `binCount / 4` bars
(256 for the app's fftSize of 2048) regardless of the length of the snapshot
actually passed in; a successful file load is exactly what creates the
analyser, with `frequencyBinCount = 1024`. -/
theorem equalizer_analyser_precondition (w h : ℚ) (buf : AudioBufferM) (t : ℚ)
    (preset : ColorPreset) (fd : List ℕ) (n : ℕ) (s : AppState) (name : String)
    (d : AudioBufferM) :
    drawWaveform none w h buf t .Equalizer preset true (some fd) = none ∧
    barRectCount
        (drawWaveform (some n) w h buf t .Equalizer preset true (some fd)) =
      n / 4 ∧
    (s.analyserBinCount = none →
      (handleFileChangeSuccess s name d).analyserBinCount =
        some frequencyBinCount ∧
      frequencyBinCount = 1024 ∧
      (handleFileChangeSuccess s name d).audioBuffer = some d) := by
  refine ⟨rfl, ?_, fun hnone => ⟨by simp [handleFileChangeSuccess, hnone], rfl, rfl⟩⟩
  have h1 : drawWaveform (some n) w h buf t .Equalizer preset true (some fd) =
      some (.clearRect 0 0 w h :: barsCmds false (n / 4) 1 w h preset fd) := by
    simp [drawWaveform]
  rw [h1, barRectCount, Option.getD_some,
    List.countP_cons_of_neg _ _ (by simp [isFillRect])]
  have h2 : (barsCmds false (n / 4) 1 w h preset fd).countP isFillRect =
      (barsCmds false (n / 4) 1 w h preset fd).length := by
    apply List.countP_eq_length.2
    intro c hc
    rcases List.mem_map.1 hc with ⟨j, _, hj⟩
    rw [← hj]
    rfl
  rw [h2, barsCmds, List.length_map, List.length_range]

/-- Witness for C10: with no analyser the Equalizer render crashes; with the
analyser created by a successful load (`frequencyBinCount = 1024`) it draws
`1024 / 4 = 256` bars even for an empty snapshot. -/
theorem equalizer_analyser_precondition_witness :
    drawWaveform none 1280 720 sampleBuffer 0 .Equalizer fuchsiaPreset true
        (some []) = none ∧
    barRectCount (drawWaveform (some 1024) 1280 720 sampleBuffer 0 .Equalizer
        fuchsiaPreset true (some [])) = 1024 / 4 ∧
    (handleFileChangeSuccess idleNoBufferState "track.mp3" sampleBuffer).analyserBinCount =
      some frequencyBinCount :=
  ⟨(equalizer_analyser_precondition 1280 720 sampleBuffer 0 fuchsiaPreset []
      1024 idleNoBufferState "track.mp3" sampleBuffer).1,
   (equalizer_analyser_precondition 1280 720 sampleBuffer 0 fuchsiaPreset []
      1024 idleNoBufferState "track.mp3" sampleBuffer).2.1,
   ((equalizer_analyser_precondition 1280 720 sampleBuffer 0 fuchsiaPreset []
      1024 idleNoBufferState "track.mp3" sampleBuffer).2.2 rfl).1⟩
